import Mathlib

/-!
Verification of the Playback Synchronization Subsystem of the Rakko Music
player (React/TypeScript). The definitions below are a shallow embedding of
the source functions in `src/unnamed/part_004` (the App component: drift
correction, visibility recovery, playback actions), `src/unnamed/part_009`
(the `usePresentationSync` hook: publisher, subscriber, command dispatch)
and `src/unnamed/part_007` (the ControllerView liveness status).

Time quantities are rationals: media clocks (`currentTime`) are in seconds,
wall-clock stamps (`Date.now()`) are integer milliseconds modelled as `ℤ`
for liveness and publish scheduling.
-/

namespace RakkoSync

/-- Audio playback state, from the `AudioState` record used throughout
`part_004` and `part_009` (fields as initialised in `part_004` lines 26-33). -/
structure AudioState where
  isPlaying : Bool
  currentTime : ℚ
  duration : ℚ
  volume : ℚ
  isLooping : Bool
  isShuffle : Bool
deriving DecidableEq, Repr

/-- A song entry. The full `Song` declaration (`types.ts`) is not among the
given sources; the fields here are exactly those the synchronization
subsystem consults: `id` (command resolution, playlist indexing), display
fields, the audio `url`, and the optional `videoUrl` that marks the
secondary video track triggering drift correction. -/
structure Song where
  id : String
  name : String
  artist : String
  url : String
  videoUrl : Option String
deriving DecidableEq, Repr

/-! ## DriftCorrector (part_004, handleTimeUpdate lines 112-146,
    visibility handler lines 218-247) -/

/-- The secondary video element: its clock, playback rate and paused flag
(`videoRef.current.currentTime`, `.playbackRate`, `.paused`). -/
structure VideoState where
  time : ℚ
  rate : ℚ
  paused : Bool
deriving DecidableEq, Repr

/-- The per-tick drift decision of `handleTimeUpdate` (part_004 lines
118-144), a pure function of `diff = videoTime - currentTime`:
small drift keeps the clock and pins the rate at 1; large drift hard-seeks
the video to the audio clock and resets the rate; moderate drift nudges the
rate to 0.95 (video ahead) or 1.05 (video behind). -/
def driftSync (currentTime : ℚ) (v : VideoState) : VideoState :=
  if |v.time - currentTime| < 3/20 then
    { v with rate := 1 }
  else if |v.time - currentTime| > 1 then
    { v with time := currentTime, rate := 1 }
  else
    { v with rate := if v.time - currentTime > 0 then 19/20 else 21/20 }

/-- The App-level state the drift corrector and the visibility handler read
and write: whether a video element is mounted (`videoRef.current`), whether
the current song carries a video track (`currentSong?.videoUrl`), the audio
engine flags, and the recovery flag. The source flag
`isRecoveringFromBackground` is a boolean set on foreground regain and
cleared by a 1000 ms timer; it is represented here by the scheduled clear
time `recoverUntil` (in wall-clock ms), assuming the timer fires at its
delay. -/
structure HostState where
  hasVideo : Bool
  hasVideoUrl : Bool
  isPlaying : Bool
  audioTime : ℚ
  video : VideoState
  recoverUntil : Option ℚ
deriving DecidableEq, Repr

/-- Whether `isRecoveringFromBackground.current` is still set at wall-clock
instant `u`. -/
def recovering (s : HostState) (u : ℚ) : Bool :=
  match s.recoverUntil with
  | some r => decide (u < r)
  | none => false

/-- `handleTimeUpdate` (part_004 lines 112-146): record the audio clock,
then run the drift decision provided a video element is mounted, the song
has a video track, and the recovery cooldown is not active.  (The source
stores `currentTime` before testing the guard; the guard reads only fields
the store does not touch, so testing it on `s` is equivalent.) -/
def hostTick (u : ℚ) (currentTime : ℚ) (s : HostState) : HostState :=
  if s.hasVideo && s.hasVideoUrl && !(recovering s u) then
    { s with audioTime := currentTime, video := driftSync currentTime s.video }
  else { s with audioTime := currentTime }

/-- A sequence of drift-correction ticks, each a pair of wall-clock instant
and audio clock reading. -/
def runTicks (s : HostState) (l : List (ℚ × ℚ)) : HostState :=
  l.foldl (fun acc p => hostTick p.1 p.2 acc) s

/-- The `document.hidden` branch of `handleVisibilityChange` (part_004
lines 220-224): pause the video if it is playing; the audio engine is left
untouched. -/
def onHidden (s : HostState) : HostState :=
  if s.hasVideo && !s.video.paused then
    { s with video := { s.video with paused := true } }
  else s

/-- The foreground-regain branch of `handleVisibilityChange` (part_004
lines 225-239), at wall-clock instant `t`: if a video element is mounted,
the song has a video track and audio is playing, set the recovery flag
(cleared 1000 ms later), hard-seek the video to the audio clock and resume
it. The playback rate is not touched by this branch. -/
def onVisible (t : ℚ) (s : HostState) : HostState :=
  if s.hasVideo && s.hasVideoUrl && s.isPlaying then
    { s with recoverUntil := some (t + 1000),
             video := { s.video with time := s.audioTime, paused := false } }
  else s

/-! ### Drift-corrector theorems -/

lemma hostTick_video_eq (s : HostState) (u a : ℚ)
    (hv : s.hasVideo = true) (hu : s.hasVideoUrl = true)
    (hr : recovering s u = false) :
    (hostTick u a s).video = driftSync a s.video := by
  unfold hostTick
  rw [hv, hu, hr]
  simp

lemma hostTick_video_skip (s : HostState) (u a : ℚ)
    (hr : recovering s u = true) :
    (hostTick u a s).video = s.video := by
  unfold hostTick
  rw [hr]
  simp

/-- Claim C1: on a drift-correction tick with a secondary video track, the
outcome is a pure function of delta = videoTime - audioTime.  If
|delta| < 0.15 the rate is pinned to 1 and no seek occurs; if |delta| > 1.0
the video is hard-seeked to the audio clock and the rate reset to 1;
otherwise the rate is set to 0.95 when the video leads (delta > 0) and 1.05
when it lags (delta < 0), with no hard seek. -/
theorem driftZones (s : HostState) (u a : ℚ)
    (hv : s.hasVideo = true) (hu : s.hasVideoUrl = true)
    (hr : recovering s u = false) :
    (|s.video.time - a| < 3/20 →
      (hostTick u a s).video.rate = 1 ∧ (hostTick u a s).video.time = s.video.time)
    ∧ (|s.video.time - a| > 1 →
      (hostTick u a s).video.time = a ∧ (hostTick u a s).video.rate = 1)
    ∧ (3/20 ≤ |s.video.time - a| → |s.video.time - a| ≤ 1 →
      (hostTick u a s).video.time = s.video.time
      ∧ (s.video.time - a > 0 → (hostTick u a s).video.rate = 19/20)
      ∧ (s.video.time - a < 0 → (hostTick u a s).video.rate = 21/20)) := by
  rw [hostTick_video_eq s u a hv hu hr]
  unfold driftSync
  split_ifs with h1 h2 h3
  · exact ⟨fun _ => ⟨rfl, rfl⟩, fun h => absurd h1 (not_lt.mpr (by linarith)),
      fun h _ => absurd h1 (not_lt.mpr h)⟩
  · exact ⟨fun h => absurd h h1, fun _ => ⟨rfl, rfl⟩,
      fun _ h => absurd h (not_le.mpr h2)⟩
  · exact ⟨fun h => absurd h h1, fun h => absurd h h2,
      fun _ _ => ⟨rfl, fun _ => rfl, fun hneg => absurd h3 (lt_asymm hneg)⟩⟩
  · exact ⟨fun h => absurd h h1, fun h => absurd h h2,
      fun _ _ => ⟨rfl, fun hpos => absurd hpos h3, fun _ => rfl⟩⟩

/-- Witness for C1: concrete ticks in each zone.  Audio at 10.00 with video
at 10.05 is SYNCED (rate 1, no seek); video at 10.50 is MINOR_DRIFT
(rate 0.95, no seek); video at 12.00 is MAJOR_DRIFT (seek to 10, rate 1). -/
theorem driftZones_witness :
    (hostTick 0 10 ⟨true, true, true, 10, ⟨201/20, 1, false⟩, none⟩).video.rate = 1
    ∧ (hostTick 0 10 ⟨true, true, true, 10, ⟨21/2, 1, false⟩, none⟩).video.rate = 19/20
    ∧ (hostTick 0 10 ⟨true, true, true, 10, ⟨12, 1, false⟩, none⟩).video.time = 10 := by
  refine ⟨?_, ?_, ?_⟩
  · exact ((driftZones ⟨true, true, true, 10, ⟨201/20, 1, false⟩, none⟩ 0 10
      rfl rfl rfl).1 (by norm_num [abs_of_pos])).1
  · exact (((driftZones ⟨true, true, true, 10, ⟨21/2, 1, false⟩, none⟩ 0 10
      rfl rfl rfl).2.2 (by norm_num [abs_of_pos]) (by norm_num [abs_of_pos])).2.1
      (by norm_num))
  · exact ((driftZones ⟨true, true, true, 10, ⟨12, 1, false⟩, none⟩ 0 10
      rfl rfl rfl).2.1 (by norm_num [abs_of_pos])).1

lemma driftSync_rate_mem (a : ℚ) (v : VideoState) :
    (driftSync a v).rate = 19/20 ∨ (driftSync a v).rate = 1
      ∨ (driftSync a v).rate = 21/20 := by
  unfold driftSync
  split_ifs with h1 h2 h3 <;> simp

lemma hostTick_rate_mem (u a : ℚ) (s : HostState)
    (h : s.video.rate = 19/20 ∨ s.video.rate = 1 ∨ s.video.rate = 21/20) :
    (hostTick u a s).video.rate = 19/20 ∨ (hostTick u a s).video.rate = 1
      ∨ (hostTick u a s).video.rate = 21/20 := by
  unfold hostTick
  split_ifs with hc
  · simpa using driftSync_rate_mem a s.video
  · simpa using h

lemma runTicks_rate_mem (l : List (ℚ × ℚ)) (s : HostState)
    (h : s.video.rate = 19/20 ∨ s.video.rate = 1 ∨ s.video.rate = 21/20) :
    (runTicks s l).video.rate = 19/20 ∨ (runTicks s l).video.rate = 1
      ∨ (runTicks s l).video.rate = 21/20 := by
  induction l generalizing s with
  | nil => exact h
  | cons p rest ih => exact ih (hostTick p.1 p.2 s) (hostTick_rate_mem p.1 p.2 s h)

/-- Claim C10: after any sequence of drift-correction ticks starting from
the default playback rate 1, the video playback rate is always exactly one
of 0.95, 1.0 or 1.05 -- the drift corrector never assigns any other rate,
whatever the magnitude of the drift. -/
theorem driftRateInvariant (s : HostState) (l : List (ℚ × ℚ))
    (h : s.video.rate = 1) :
    (runTicks s l).video.rate = 19/20 ∨ (runTicks s l).video.rate = 1
      ∨ (runTicks s l).video.rate = 21/20 :=
  runTicks_rate_mem l s (Or.inr (Or.inl h))

/-- Witness for C10: a concrete three-tick run from rate 1 lands on one of
the three sanctioned rates. -/
theorem driftRateInvariant_witness :
    ((⟨true, true, true, 0, ⟨0, 1, false⟩, none⟩ : HostState).video.rate = 1)
    ∧ ((runTicks ⟨true, true, true, 0, ⟨0, 1, false⟩, none⟩
        [(0, 1/2), (1, 3), (2, 10)]).video.rate = 19/20
      ∨ (runTicks ⟨true, true, true, 0, ⟨0, 1, false⟩, none⟩
        [(0, 1/2), (1, 3), (2, 10)]).video.rate = 1
      ∨ (runTicks ⟨true, true, true, 0, ⟨0, 1, false⟩, none⟩
        [(0, 1/2), (1, 3), (2, 10)]).video.rate = 21/20) :=
  ⟨rfl, driftRateInvariant ⟨true, true, true, 0, ⟨0, 1, false⟩, none⟩
    [(0, 1/2), (1, 3), (2, 10)] rfl⟩

/-! ### Visibility recovery (claim C6) -/

/-- A host backgrounded mid-correction: the minor-drift controller had left
the video rate at 1.05 and the visibility handler paused the video. -/
def bgState : HostState :=
  { hasVideo := true, hasVideoUrl := true, isPlaying := true, audioTime := 9,
    video := { time := 5, rate := 21/20, paused := true }, recoverUntil := none }

/-- Counterexample to claim C6 as stated: on regaining foreground
visibility the handler hard-seeks the video to the audio clock and resumes
it, but does not reset the playback rate to 1.0 -- here the rate stays at
1.05. -/
theorem visibilityRateCounterexample :
    (onVisible 0 bgState).video.time = bgState.audioTime
    ∧ (onVisible 0 bgState).video.paused = false
    ∧ ¬((onVisible 0 bgState).video.rate = 1) := by
  refine ⟨rfl, rfl, ?_⟩
  norm_num [onVisible, bgState]

/-- Claim C6 (amended): when the host regains foreground visibility with a
video track present and audio playing, exactly one explicit hard resync is
performed (secondary track time := primary track time, playback resumed,
playback rate left unchanged -- it is not reset to 1.0), and drift
evaluation is suspended for a 1000 ms cooldown window, resuming afterwards;
while backgrounded, the secondary video track is paused while the primary
audio continues. -/
theorem visibilityRecovery (s : HostState) (t u a : ℚ)
    (hv : s.hasVideo = true) (hu : s.hasVideoUrl = true)
    (hp : s.isPlaying = true) :
    ((onVisible t s).video.time = s.audioTime
      ∧ (onVisible t s).video.paused = false
      ∧ (onVisible t s).video.rate = s.video.rate
      ∧ (onVisible t s).recoverUntil = some (t + 1000))
    ∧ (u < t + 1000 → (hostTick u a (onVisible t s)).video = (onVisible t s).video)
    ∧ (t + 1000 ≤ u →
        (hostTick u a (onVisible t s)).video = driftSync a (onVisible t s).video)
    ∧ ((onHidden s).video.paused = true
      ∧ (onHidden s).isPlaying = s.isPlaying
      ∧ (onHidden s).audioTime = s.audioTime) := by
  have hs1 : onVisible t s =
      { s with recoverUntil := some (t + 1000),
               video := { s.video with time := s.audioTime, paused := false } } := by
    unfold onVisible
    rw [hv, hu, hp]
    simp
  refine ⟨by rw [hs1]; exact ⟨rfl, rfl, rfl, rfl⟩, ?_, ?_, ?_⟩
  · intro hlt
    refine hostTick_video_skip (onVisible t s) u a ?_
    rw [hs1]
    unfold recovering
    simpa using hlt
  · intro hge
    refine hostTick_video_eq (onVisible t s) u a ?_ ?_ ?_
    · rw [hs1]; exact hv
    · rw [hs1]; exact hu
    · rw [hs1]
      unfold recovering
      simpa using hge
  · unfold onHidden
    rcases hpz : s.video.paused with _ | _
    · rw [hv]
      simp
    · rw [hv]
      simp [hpz]

/-- Witness for C6 (amended): the backgrounded host above, regaining
visibility at t = 0: the video is hard-seeked to the audio clock, a drift
tick inside the cooldown window leaves the video untouched, and a tick
after the window applies the drift decision again. -/
theorem visibilityRecovery_witness :
    (onVisible 0 bgState).video.time = bgState.audioTime
    ∧ (hostTick 500 9 (onVisible 0 bgState)).video = (onVisible 0 bgState).video
    ∧ (hostTick 1000 9 (onVisible 0 bgState)).video
        = driftSync 9 (onVisible 0 bgState).video := by
  have h := visibilityRecovery bgState 0 500 9 rfl rfl rfl
  have h2 := visibilityRecovery bgState 0 1000 9 rfl rfl rfl
  exact ⟨h.1.1, h.2.1 (by norm_num), h2.2.2.1 (by norm_num)⟩

/-! ## StatePublisher / StateSubscriber (part_009, usePresentationSync) -/

/-- The role of a sync participant (`SyncRole` in part_009 line 103). -/
inductive SyncRole
  | player
  | controller
deriving DecidableEq, Repr

/-- The full-state snapshot payload (`SyncStatePayload`, part_009 lines
110-116).  `timestamp` is the `Date.now()` wall-clock stamp in ms. -/
structure SyncStatePayload where
  currentSong : Option Song
  currentCover : Option String
  audioState : AudioState
  songs : List Song
  timestamp : ℤ
deriving DecidableEq, Repr

/-- A command payload as it travels over the channel (`payload?: any`).
The wire contract uses a number for SEEK and SET_VOLUME, a boolean for
SET_LOOP and SET_SHUFFLE, and a song object for PLAY_SONG. -/
inductive Payload
  | num (q : ℚ)
  | flag (b : Bool)
  | song (s : Song)
  | nil
deriving DecidableEq, Repr

/-- A bus message (`SyncMessage`, part_009 lines 105-108).  The command
kind is a string at runtime (TypeScript unions are erased), which is what
lets unknown kinds arrive. -/
inductive SyncMessage
  | stateUpdate (payload : SyncStatePayload)
  | command (cmd : String) (payload : Payload)
  | requestInit
deriving DecidableEq, Repr

/-- The publisher-side inputs of `usePresentationSync`: the role, whether
the channel ref is live, and the Player-only props (all optional in the
hook signature). -/
structure PubInputs where
  role : SyncRole
  hasChannel : Bool
  currentSong : Option Song
  currentCover : Option String
  audioState : Option AudioState
  songs : Option (List Song)
deriving DecidableEq, Repr

/-- The default audio state substituted by `broadcastState` when the
`audioState` prop is absent (part_009 line 228). -/
def defaultAudioState : AudioState :=
  { isPlaying := false, currentTime := 0, duration := 0, volume := 1,
    isLooping := false, isShuffle := false }

/-- `broadcastState` (part_009 lines 220-252) evaluated at wall-clock
`now`: guarded on the player role and a live channel, and on some state
being present (`!currentSong && !audioState` returns early); otherwise it
posts one STATE_UPDATE built from the current props.  The `force` argument
exists in the source but is never consulted (the diffing signature computed
there is dead code), so the post is unconditional once the guards pass. -/
def broadcastState (p : PubInputs) (force : Bool) (now : ℤ) : Option SyncMessage :=
  if p.role ≠ SyncRole.player ∨ p.hasChannel = false then none
  else if p.currentSong = none ∧ p.audioState = none then none
  else some (SyncMessage.stateUpdate
    { currentSong := p.currentSong
      currentCover := p.currentCover
      audioState := p.audioState.getD defaultAudioState
      songs := p.songs.getD []
      timestamp := now })

/-- The publisher with its trailing-debounce timer: `pendingDeadline` is
the fire time of the currently scheduled 100 ms timeout, if any. -/
structure PubState where
  inputs : PubInputs
  pendingDeadline : Option ℤ
deriving DecidableEq, Repr

/-- The player branch of `handleMessage` for a REQUEST_INIT message
(part_009 lines 196-199): call `broadcastState(true)` synchronously, in the
same event-loop step, leaving any scheduled debounce timer untouched.
Returns the new state and the messages posted during the step. -/
def handleRequestInit (st : PubState) (now : ℤ) : PubState × List SyncMessage :=
  (st, (broadcastState st.inputs true now).toList)

/-- The messages posted when the debounce timeout scheduled for `fireAt`
fires: its callback is `broadcastState()` (part_009 lines 263-265),
tagged here with the fire instant. -/
def scheduleEmit (p : PubInputs) (fireAt : ℤ) : List (ℤ × SyncMessage) :=
  (broadcastState p false fireAt).toList.map (fun m => (fireAt, m))

/-- The throttle effect (part_009 lines 254-268) run over a sequence of
prop-change events `(t, props)` in time order: each change schedules a
100 ms timeout calling `broadcastState`, and its cleanup cancels the
previously scheduled timeout if it has not fired yet (that is, if the next
change arrives strictly before the pending deadline). -/
def debounceRun : List (ℤ × PubInputs) → List (ℤ × SyncMessage)
  | [] => []
  | [(t, p)] => scheduleEmit p (t + 100)
  | (t, p) :: (t2, p2) :: rest =>
      if t2 < t + 100 then debounceRun ((t2, p2) :: rest)
      else scheduleEmit p (t + 100) ++ debounceRun ((t2, p2) :: rest)

/-- The Controller read-model: the synced mirror state of the hook
(part_009 lines 169-173), initially uninitialized. -/
structure ReadModel where
  syncedSong : Option Song
  syncedCover : Option String
  syncedAudioState : Option AudioState
  syncedSongs : List Song
  lastSyncTime : ℤ
deriving DecidableEq, Repr

/-- The controller branch of `handleMessage` for a STATE_UPDATE (part_009
lines 186-195): replace every synced field with the payload, with no
comparison of `timestamp` against the current read-model. -/
def applySnapshot (m : ReadModel) (p : SyncStatePayload) : ReadModel :=
  { syncedSong := p.currentSong
    syncedCover := p.currentCover
    syncedAudioState := some p.audioState
    syncedSongs := p.songs
    lastSyncTime := p.timestamp }

/-- The controller branch of `handleMessage` (part_009 lines 186-195):
STATE_UPDATE replaces the read-model; every other message type is ignored
by a controller. -/
def controllerHandleMessage (m : ReadModel) (msg : SyncMessage) : ReadModel :=
  match msg with
  | .stateUpdate p => applySnapshot m p
  | _ => m

/-! ### Subscriber theorem (claim C2) -/

/-- Claim C2: delivering snapshots S1..Sn in order to one Subscriber leaves
its read-model equal to Sn, whatever each snapshot's timestamp: every
received snapshot replaces the whole read-model, so the last-arrived one
wins, not the one with the largest timestamp. -/
theorem lastArrivedWins (m : ReadModel) (l : List SyncStatePayload)
    (hne : l ≠ []) :
    l.foldl (fun acc p => controllerHandleMessage acc (.stateUpdate p)) m
      = applySnapshot m (l.getLast hne) := by
  induction l generalizing m with
  | nil => exact absurd rfl hne
  | cons p rest ih =>
    rcases rest with _ | ⟨q, rest2⟩
    · rfl
    · rw [List.foldl_cons, List.getLast_cons (by simp)]
      exact ih (controllerHandleMessage m (.stateUpdate p)) (by simp)

/-- A concrete audio-only song. -/
def songA : Song :=
  { id := "a1", name := "Song A", artist := "Artist A", url := "blob:a", videoUrl := none }

/-- A concrete song carrying a secondary video track. -/
def songB : Song :=
  { id := "b2", name := "Song B", artist := "Artist B", url := "blob:b",
    videoUrl := some "blob:bv" }

/-- A concrete snapshot with a later timestamp. -/
def snapLate : SyncStatePayload :=
  { currentSong := some songA, currentCover := some "coverA",
    audioState := { isPlaying := true, currentTime := 5, duration := 100,
                    volume := 4/5, isLooping := false, isShuffle := false },
    songs := [songA, songB], timestamp := 2000 }

/-- A concrete snapshot with an earlier timestamp, delivered last. -/
def snapEarly : SyncStatePayload :=
  { currentSong := some songB, currentCover := none,
    audioState := { isPlaying := false, currentTime := 7, duration := 90,
                    volume := 1/2, isLooping := true, isShuffle := false },
    songs := [songB], timestamp := 1000 }

/-- Witness for C2: a snapshot with timestamp 2000 followed by one with
timestamp 1000; the read-model ends at the one that arrived last, even
though its timestamp is smaller. -/
theorem lastArrivedWins_witness :
    snapEarly.timestamp < snapLate.timestamp
    ∧ ([snapLate, snapEarly].foldl
        (fun acc p => controllerHandleMessage acc (.stateUpdate p))
        ⟨none, none, none, [], 0⟩
      = applySnapshot ⟨none, none, none, [], 0⟩ snapEarly) :=
  ⟨by decide,
   lastArrivedWins ⟨none, none, none, [], 0⟩ [snapLate, snapEarly] (by simp)⟩

/-! ### Publisher theorems (claims C3 and C7) -/

/-- Claim C3: a live Publisher (Player role, live channel, state present)
that receives REQUEST_INIT replies in the same synchronous step with
exactly one full snapshot of its current state stamped `now`, for any
pending debounce deadline -- the scheduled timer is neither consulted nor
cancelled, so an active 100 ms window is bypassed. -/
theorem requestInitBypass (st : PubState) (now : ℤ) (a : AudioState)
    (hrole : st.inputs.role = SyncRole.player)
    (hch : st.inputs.hasChannel = true)
    (ha : st.inputs.audioState = some a) :
    handleRequestInit st now =
      (st, [SyncMessage.stateUpdate
        { currentSong := st.inputs.currentSong
          currentCover := st.inputs.currentCover
          audioState := a
          songs := st.inputs.songs.getD []
          timestamp := now }]) := by
  unfold handleRequestInit broadcastState
  rw [hrole, hch, ha]
  simp

/-- The publisher inputs of a live Player mid-session. -/
def liveInputs : PubInputs :=
  { role := .player, hasChannel := true, currentSong := some songA,
    currentCover := some "coverA",
    audioState := some { isPlaying := true, currentTime := 5, duration := 100,
                         volume := 4/5, isLooping := false, isShuffle := false },
    songs := some [songA, songB] }

/-- Witness for C3: a REQUEST_INIT arriving at t = 0, zero ms into an
active debounce window whose timer is scheduled to fire at t = 100, still
produces one immediate snapshot and leaves the timer in place. -/
theorem requestInitBypass_witness :
    handleRequestInit ⟨liveInputs, some 100⟩ 0
      = (⟨liveInputs, some 100⟩, [SyncMessage.stateUpdate
          { currentSong := some songA, currentCover := some "coverA",
            audioState := { isPlaying := true, currentTime := 5, duration := 100,
                            volume := 4/5, isLooping := false, isShuffle := false },
            songs := [songA, songB], timestamp := 0 }]) :=
  requestInitBypass ⟨liveInputs, some 100⟩ 0
    { isPlaying := true, currentTime := 5, duration := 100,
      volume := 4/5, isLooping := false, isShuffle := false } rfl rfl rfl

lemma scheduleEmit_length (p : PubInputs) (fireAt : ℤ) :
    (scheduleEmit p fireAt).length ≤ 1 := by
  unfold scheduleEmit
  cases broadcastState p false fireAt <;> simp

/-- Claim C7: for a burst of prop changes each arriving strictly within
100 ms of the previous one, the trailing debounce publishes at most one
snapshot, namely the one `broadcastState` posts 100 ms after the last
change, built from the last state. -/
theorem debounceCoalesce (l : List (ℤ × PubInputs)) (hne : l ≠ [])
    (hburst : l.Chain' (fun a b => b.1 < a.1 + 100)) :
    debounceRun l = scheduleEmit (l.getLast hne).2 ((l.getLast hne).1 + 100)
    ∧ (debounceRun l).length ≤ 1 := by
  induction l with
  | nil => exact absurd rfl hne
  | cons a rest ih =>
    rcases rest with _ | ⟨b, rest2⟩
    · obtain ⟨t, p⟩ := a
      exact ⟨rfl, scheduleEmit_length p (t + 100)⟩
    · obtain ⟨t, p⟩ := a
      obtain ⟨t2, p2⟩ := b
      rw [List.chain'_cons] at hburst
      have hstep : debounceRun ((t, p) :: (t2, p2) :: rest2)
          = debounceRun ((t2, p2) :: rest2) := by
        simp [debounceRun, hburst.1]
      have ihh := ih (by simp) hburst.2
      constructor
      · rw [hstep, List.getLast_cons (by simp)]
        exact ihh.1
      · rw [hstep]
        exact ihh.2

/-- Witness for C7: three prop changes at t = 0, 30, 90 ms (each within
100 ms of the previous) produce exactly one snapshot, 100 ms after the
last change, with the fire-time stamp. -/
theorem debounceCoalesce_witness :
    debounceRun [(0, liveInputs), (30, liveInputs), (90, liveInputs)]
      = [(190, SyncMessage.stateUpdate
          { currentSong := some songA, currentCover := some "coverA",
            audioState := { isPlaying := true, currentTime := 5, duration := 100,
                            volume := 4/5, isLooping := false, isShuffle := false },
            songs := [songA, songB], timestamp := 190 })] := by
  have h := debounceCoalesce [(0, liveInputs), (30, liveInputs), (90, liveInputs)]
    (by simp) (by rw [List.chain'_cons, List.chain'_cons]
                  exact ⟨by norm_num, by norm_num, List.chain'_singleton _⟩)
  rw [h.1]
  rfl

/-! ## CommandChannel: the Player-side handlers (part_004) and the
    dispatch table (part_009, executeCommand lines 286-310) -/

/-- The Player-side App state the command handlers read and write: the
playlist, the selected song, the audio flags, and the video element clock
when one is mounted (`videoRef.current.currentTime`). -/
structure PlayerState where
  songs : List Song
  currentSong : Option Song
  audioState : AudioState
  videoTime : Option ℚ
deriving DecidableEq, Repr

/-- `songs.findIndex(s => s.id === currentSong?.id)` (part_004 lines 160,
297): -1 when no song is selected or the id is absent. -/
def currentIndexOf (songs : List Song) (currentSong : Option Song) : ℤ :=
  match currentSong with
  | none => -1
  | some c =>
    match songs.findIdx? (fun x => x.id == c.id) with
    | some i => (i : ℤ)
    | none => -1

/-- `togglePlayPause` (part_004 lines 279-292): with no song selected and a
nonempty playlist it selects the first song and returns without touching
`isPlaying`; otherwise it flips `isPlaying` (the play/pause promise outcome
does not gate the flip, which happens unconditionally after the branch). -/
def togglePlayPause (s : PlayerState) : PlayerState :=
  if s.currentSong = none ∧ s.songs ≠ [] then
    { s with currentSong := s.songs.head? }
  else
    { s with audioState := { s.audioState with isPlaying := !s.audioState.isPlaying } }

/-- `playNext` (part_004 lines 156-169).  The shuffle branch draws
`Math.floor(Math.random() * songs.length)`; the draw is supplied here as
`rand % songs.length`. -/
def playNext (rand : ℕ) (s : PlayerState) : PlayerState :=
  if s.songs = [] then s
  else
    { s with currentSong :=
        if s.audioState.isShuffle then s.songs[rand % s.songs.length]?
        else s.songs[((currentIndexOf s.songs s.currentSong + 1)
          % (s.songs.length : ℤ)).toNat]? }

/-- `playPrev` (part_004 lines 294-300). -/
def playPrev (s : PlayerState) : PlayerState :=
  if s.songs = [] then s
  else
    { s with currentSong :=
        s.songs[((currentIndexOf s.songs s.currentSong - 1 + (s.songs.length : ℤ))
          % (s.songs.length : ℤ)).toNat]? }

/-- `handleSeekToTime` (part_004 lines 309-320): set the audio clock (the
`audioRef` element always exists, so the guard is always taken), mirror the
seek onto the video element when mounted, and if not playing, start
playback.  The source sets `currentTime` first and then tests the
pre-call `isPlaying`; the two branches below spell out the same result. -/
def handleSeekToTime (time : ℚ) (s : PlayerState) : PlayerState :=
  if s.audioState.isPlaying then
    { s with audioState := { s.audioState with currentTime := time },
             videoTime := s.videoTime.map (fun _ => time) }
  else
    { s with audioState := { s.audioState with currentTime := time, isPlaying := true },
             videoTime := s.videoTime.map (fun _ => time) }

/-- The `onPlay` handler (part_004 lines 619-621). -/
def onPlay (s : PlayerState) : PlayerState :=
  if !s.audioState.isPlaying then togglePlayPause s else s

/-- The `onPause` handler (part_004 lines 622-624). -/
def onPause (s : PlayerState) : PlayerState :=
  if s.audioState.isPlaying then togglePlayPause s else s

/-- The `onSetVolume` handler (part_004 lines 629-632). -/
def onSetVolume (vol : ℚ) (s : PlayerState) : PlayerState :=
  { s with audioState := { s.audioState with volume := vol } }

/-- The `onSetLoop` handler (part_004 line 633). -/
def onSetLoop (loop : Bool) (s : PlayerState) : PlayerState :=
  { s with audioState := { s.audioState with isLooping := loop } }

/-- The `onSetShuffle` handler (part_004 line 634). -/
def onSetShuffle (shuffle : Bool) (s : PlayerState) : PlayerState :=
  { s with audioState := { s.audioState with isShuffle := shuffle } }

/-- The `onPlaySong` handler (part_004 lines 637-646): resolve the received
payload against the local playlist by id; when found, select the local
entry and start playing; otherwise do nothing. -/
def onPlaySong (payload : Song) (s : PlayerState) : PlayerState :=
  match s.songs.find? (fun x => x.id == payload.id) with
  | some found =>
      { s with currentSong := some found,
               audioState := { s.audioState with isPlaying := true } }
  | none => s

/-- The song-change effect (part_004 lines 251-276), on the play-success
path: a newly selected song starts playing (`isPlaying := true`); a cleared
selection pauses (`isPlaying := false`). -/
def songChangeEffect (s : PlayerState) : PlayerState :=
  match s.currentSong with
  | some _ => { s with audioState := { s.audioState with isPlaying := true } }
  | none => { s with audioState := { s.audioState with isPlaying := false } }

/-- React re-runs the song-change effect only when `currentSong` changed. -/
def applyEffects (old new : PlayerState) : PlayerState :=
  if new.currentSong = old.currentSong then new else songChangeEffect new

/-- `executeCommand` (part_009 lines 286-310): the fixed dispatch table on
the runtime message kind string; any other kind falls through the switch
and is ignored.  Ill-shaped payloads for a known kind are outside the wire
contract and are left as no-ops here. -/
def executeCommand (cmd : String) (payload : Payload) (rand : ℕ)
    (s : PlayerState) : PlayerState :=
  if cmd = "PLAY" then onPlay s
  else if cmd = "PAUSE" then onPause s
  else if cmd = "TOGGLE_PLAY" then togglePlayPause s
  else if cmd = "NEXT" then playNext rand s
  else if cmd = "PREV" then playPrev s
  else if cmd = "SEEK" then
    match payload with
    | .num t => handleSeekToTime t s
    | _ => s
  else if cmd = "SET_VOLUME" then
    match payload with
    | .num v => onSetVolume v s
    | _ => s
  else if cmd = "SET_LOOP" then
    match payload with
    | .flag b => onSetLoop b s
    | _ => s
  else if cmd = "SET_SHUFFLE" then
    match payload with
    | .flag b => onSetShuffle b s
    | _ => s
  else if cmd = "PLAY_SONG" then
    match payload with
    | .song p => onPlaySong p s
    | _ => s
  else s

/-- Delivering one command to the Player: run the dispatched handler, then
the React effects it triggers. -/
def deliver (cmd : String) (payload : Payload) (rand : ℕ)
    (s : PlayerState) : PlayerState :=
  applyEffects s (executeCommand cmd payload rand s)

/-! ### CommandChannel theorems (claims C9, C8, C4) -/

/-- Claim C9: a command message whose kind is none of the ten
handler-table kinds is silently ignored: the dispatch leaves the Player
state unchanged, both directly and after React effects. -/
theorem unknownKindIgnored (cmd : String) (payload : Payload) (rand : ℕ)
    (s : PlayerState)
    (h : cmd ∉ (["PLAY", "PAUSE", "TOGGLE_PLAY", "NEXT", "PREV", "SEEK",
      "SET_VOLUME", "SET_LOOP", "SET_SHUFFLE", "PLAY_SONG"] : List String)) :
    executeCommand cmd payload rand s = s ∧ deliver cmd payload rand s = s := by
  simp only [List.mem_cons, List.not_mem_nil, or_false] at h
  push_neg at h
  obtain ⟨h1, h2, h3, h4, h5, h6, h7, h8, h9, h10⟩ := h
  have hex : executeCommand cmd payload rand s = s := by
    simp [executeCommand, h1, h2, h3, h4, h5, h6, h7, h8, h9, h10]
  refine ⟨hex, ?_⟩
  unfold deliver
  rw [hex]
  unfold applyEffects
  simp

/-- The Player state used by the concrete command-channel scenarios. -/
def basePlayer : PlayerState :=
  { songs := [songA, songB], currentSong := some songA,
    audioState := { isPlaying := false, currentTime := 0, duration := 100,
                    volume := 1, isLooping := false, isShuffle := false },
    videoTime := none }

/-- Witness for C9: the kind REORDER_SONGS -- which the newer
ControllerView actually sends -- is not in the dispatch table and leaves
the Player untouched. -/
theorem unknownKindIgnored_witness :
    executeCommand "REORDER_SONGS" .nil 0 basePlayer = basePlayer
    ∧ deliver "REORDER_SONGS" .nil 0 basePlayer = basePlayer :=
  unknownKindIgnored "REORDER_SONGS" .nil 0 basePlayer (by decide)

/-- Claim C8: PLAY_SONG is resolved by identifier only: two payloads with
the same id produce the same result; when the id is found, the resolved
entry of the local playlist is selected with `isPlaying := true`; when no
entry matches, the state is unchanged. -/
theorem playSongResolvesById (p q : Song) (rand : ℕ) (s : PlayerState)
    (hid : p.id = q.id) :
    deliver "PLAY_SONG" (.song p) rand s = deliver "PLAY_SONG" (.song q) rand s
    ∧ (∀ found, s.songs.find? (fun x => x.id == p.id) = some found →
        deliver "PLAY_SONG" (.song p) rand s
          = { s with currentSong := some found,
                     audioState := { s.audioState with isPlaying := true } }
        ∧ found ∈ s.songs ∧ found.id = p.id)
    ∧ (s.songs.find? (fun x => x.id == p.id) = none →
        deliver "PLAY_SONG" (.song p) rand s = s) := by
  have hdisp : ∀ r : Song, executeCommand "PLAY_SONG" (.song r) rand s
      = onPlaySong r s := by
    intro r
    simp [executeCommand]
  have heq : ∀ r : Song, r.id = p.id →
      deliver "PLAY_SONG" (.song r) rand s = applyEffects s (onPlaySong p s) := by
    intro r hr
    unfold deliver
    rw [hdisp r]
    unfold onPlaySong
    rw [show (fun x : Song => x.id == r.id) = (fun x : Song => x.id == p.id) from
      funext fun x => by rw [hr]]
  refine ⟨?_, ?_, ?_⟩
  · rw [heq p rfl, heq q hid.symm]
  · intro found hfound
    refine ⟨?_, List.mem_of_find?_eq_some hfound, ?_⟩
    · rw [heq p rfl]
      unfold onPlaySong
      rw [hfound]
      unfold applyEffects songChangeEffect
      split_ifs with hsame
      · rfl
      · rfl
    · have := List.find?_some hfound
      exact eq_of_beq this
  · intro hnone
    rw [heq p rfl]
    unfold onPlaySong
    rw [hnone]
    unfold applyEffects
    simp

/-- A structurally-cloned copy of `songB` as another process would send
it: same identifier, differing object fields. -/
def cloneB : Song :=
  { id := "b2", name := "Song B (remote copy)", artist := "Artist B",
    url := "blob:remote", videoUrl := none }

/-- Witness for C8: a cloned payload with id "b2" resolves to the local
playlist entry `songB` and starts playback. -/
theorem playSongResolvesById_witness :
    cloneB.id = songB.id
    ∧ deliver "PLAY_SONG" (.song cloneB) 0 basePlayer
        = { basePlayer with
            currentSong := some songB,
            audioState := { basePlayer.audioState with isPlaying := true } } :=
  ⟨rfl, ((playSongResolvesById cloneB songB 0 basePlayer rfl).2.1 songB
    (by decide)).1⟩

/-- A reachable Player pre-state with no selected song but `isPlaying`
true: starting from a fresh Player with one loaded song, delivering
SEEK starts playback without selecting a song. -/
def noSongPlaying : PlayerState :=
  { songs := [songA], currentSong := none,
    audioState := { isPlaying := true, currentTime := 3, duration := 0,
                    volume := 1, isLooping := false, isShuffle := false },
    videoTime := none }

/-- Counterexample to claim C4 as stated: from the pre-state above
(reachable by delivering SEEK to a fresh Player), delivering TOGGLE_PLAY
twice ends with `isPlaying = false` although it started true -- the first
delivery selects the first song instead of toggling, and the song-change
effect forces playback on. -/
theorem toggleTwiceCounterexample :
    (deliver "SEEK" (.num 3) 0
        { noSongPlaying with
          audioState := { noSongPlaying.audioState with
                          isPlaying := false, currentTime := 0 } }
      = noSongPlaying)
    ∧ noSongPlaying.audioState.isPlaying = true
    ∧ (deliver "TOGGLE_PLAY" .nil 0
        (deliver "TOGGLE_PLAY" .nil 0 noSongPlaying)).audioState.isPlaying
      = false := by
  refine ⟨?_, rfl, ?_⟩ <;> decide

lemma deliver_toggle (s : PlayerState)
    (hc : ¬(s.currentSong = none ∧ s.songs ≠ [])) :
    deliver "TOGGLE_PLAY" .nil 0 s
      = { s with audioState :=
          { s.audioState with isPlaying := !s.audioState.isPlaying } } := by
  unfold deliver
  rw [show executeCommand "TOGGLE_PLAY" .nil 0 s = togglePlayPause s from by
    simp [executeCommand]]
  unfold togglePlayPause
  rw [if_neg hc]
  unfold applyEffects
  simp

lemma deliver_seek (t : ℚ) (s : PlayerState) :
    deliver "SEEK" (.num t) 0 s = handleSeekToTime t s := by
  unfold deliver
  rw [show executeCommand "SEEK" (.num t) 0 s = handleSeekToTime t s from by
    simp [executeCommand]]
  have hsong : (handleSeekToTime t s).currentSong = s.currentSong := by
    unfold handleSeekToTime
    split_ifs <;> rfl
  unfold applyEffects
  rw [if_pos hsong]

/-- Claim C4 (amended): delivering SEEK(t) twice yields currentTime = t
for every pre-state (idempotent), and delivering TOGGLE_PLAY twice returns
`isPlaying` to its starting value for every pre-state in which a song is
selected or the playlist is empty; when no song is selected and the
playlist is nonempty, the first TOGGLE_PLAY instead selects the first song
(after which playback is on), so the starting value is not restored in
general. -/
theorem toggleSeekAlgebra (s : PlayerState) (t : ℚ) :
    ((s.currentSong.isSome ∨ s.songs = []) →
      (deliver "TOGGLE_PLAY" .nil 0
        (deliver "TOGGLE_PLAY" .nil 0 s)).audioState.isPlaying
        = s.audioState.isPlaying)
    ∧ (deliver "SEEK" (.num t) 0
        (deliver "SEEK" (.num t) 0 s)).audioState.currentTime = t := by
  constructor
  · intro h
    have hcond : ¬(s.currentSong = none ∧ s.songs ≠ []) := by
      rintro ⟨hc, hs⟩
      rcases h with h1 | h2
      · rw [hc] at h1
        simp at h1
      · exact hs h2
    rw [deliver_toggle s hcond,
        deliver_toggle
          { s with audioState :=
              { s.audioState with isPlaying := !s.audioState.isPlaying } }
          (by simpa using hcond)]
    simp
  · rw [deliver_seek, deliver_seek]
    unfold handleSeekToTime
    split_ifs <;> simp

/-- Witness for C4 (amended): on a Player with songA selected and paused,
TOGGLE_PLAY twice lands back on paused, and SEEK(42) twice lands on
currentTime = 42. -/
theorem toggleSeekAlgebra_witness :
    (deliver "TOGGLE_PLAY" .nil 0
      (deliver "TOGGLE_PLAY" .nil 0 basePlayer)).audioState.isPlaying
      = basePlayer.audioState.isPlaying
    ∧ (deliver "SEEK" (.num 42) 0
        (deliver "SEEK" (.num 42) 0 basePlayer)).audioState.currentTime = 42 :=
  ⟨(toggleSeekAlgebra basePlayer 42).1 (Or.inl rfl),
   (toggleSeekAlgebra basePlayer 42).2⟩

/-! ## LivenessMonitor (part_007, ControllerView: getStatusText lines
    69-74, isConnected line 61, ping state lines 30-41 and 64-67) -/

/-- The four connection statuses displayed by `getStatusText`. -/
inductive ConnStatus
  | Pinging
  | Connected
  | Online
  | Offline
deriving DecidableEq, Repr

/-- The probe state owned by the Controller: `isPinging` (set by
`handlePing`, reset by the effect on `lastPongTime`) and the wall-clock
stamp of the last PONG (0 until one arrives). -/
structure ControllerConn where
  isPinging : Bool
  lastPongTime : ℤ
deriving DecidableEq, Repr

/-- `handlePing` (part_007 lines 64-67): mark a probe outstanding. -/
def handlePing (c : ControllerConn) : ControllerConn :=
  { c with isPinging := true }

/-- A PONG arriving at wall-clock `t`: records `lastPongTime` and the
effect on it (part_007 lines 39-41) clears `isPinging`. -/
def receivePong (t : ℤ) (c : ControllerConn) : ControllerConn :=
  { c with isPinging := false, lastPongTime := t }

/-- `isConnected` (part_007 line 61 and ControllerView.tsx line 56): a
snapshot arrived within the 10 000 ms staleness threshold. -/
def isConnected (currentTime lastSyncTime : ℤ) : Bool :=
  currentTime - lastSyncTime < 10000

/-- `getStatusText` (part_007 lines 69-74), recomputed by the 1 s tick
that refreshes `currentTime`. -/
def getStatusText (c : ControllerConn) (currentTime lastSyncTime : ℤ) : ConnStatus :=
  if c.isPinging then .Pinging
  else if c.lastPongTime > 0 ∧ currentTime - c.lastPongTime < 3000 then .Connected
  else if isConnected currentTime lastSyncTime then .Online
  else .Offline

/-- Claim C5: the liveness status recomputed each 1 s tick satisfies:
Offline when the last snapshot is at least 10 000 ms old, no recent PONG
exists and no probe is outstanding; Connected when a PONG arrived within
3 000 ms (after which the reset effect has cleared the outstanding-probe
flag); Online when a snapshot arrived within the threshold but there is no
recent probe response and no outstanding probe; Pinging whenever a PING
was sent and no PONG has arrived since. -/
theorem livenessStatus (c : ControllerConn) (now lastSyncTime : ℤ) :
    (c.isPinging = false → 10000 ≤ now - lastSyncTime →
      ¬(c.lastPongTime > 0 ∧ now - c.lastPongTime < 3000) →
      getStatusText c now lastSyncTime = .Offline)
    ∧ (c.isPinging = false → c.lastPongTime > 0 → now - c.lastPongTime < 3000 →
      getStatusText c now lastSyncTime = .Connected)
    ∧ (c.isPinging = false → now - lastSyncTime < 10000 →
      ¬(c.lastPongTime > 0 ∧ now - c.lastPongTime < 3000) →
      getStatusText c now lastSyncTime = .Online)
    ∧ (c.isPinging = true → getStatusText c now lastSyncTime = .Pinging) := by
  refine ⟨?_, ?_, ?_, ?_⟩
  · intro hp hstale hnp
    simp [getStatusText, isConnected, hp, hnp, not_lt.mpr hstale]
  · intro hp hpong hrecent
    simp [getStatusText, hp, hpong, hrecent]
  · intro hp hfresh hnp
    simp [getStatusText, isConnected, hp, hnp, hfresh]
  · intro hp
    simp [getStatusText, hp]

/-- Witness for C5, on the spec's own examples at now = 20000 ms: a last
snapshot from 10 001 ms ago with no PONG at all gives Offline; a PING sent
600 ms ago whose PONG arrived 500 ms ago gives Connected. -/
theorem livenessStatus_witness :
    getStatusText ⟨false, 0⟩ 20000 9999 = .Offline
    ∧ getStatusText (receivePong 19500 (handlePing ⟨false, 0⟩)) 20000 19990
      = .Connected :=
  ⟨(livenessStatus ⟨false, 0⟩ 20000 9999).1 rfl (by decide) (by decide),
   (livenessStatus (receivePong 19500 (handlePing ⟨false, 0⟩)) 20000 19990).2.1
     rfl (by decide) (by decide)⟩

end RakkoSync
